import Mathlib

/-
Verification of the django-brevo-analytics event-ingestion and read path.

The embedding below translates the core of the repository into Lean:

* `event_mapping`, `process_payload`, `brevo_webhook` follow
  `brevo_analytics/webhooks.py` (the webhook ingestion pipeline);
* `derive_current_status`, `fetch_dashboard_stats`, `query_emails` and
  `fetch_emails` follow `brevo_analytics/supabase.py` (the read path);
* `get_dashboard_stats` / `dashboard_view` follow the cache-fallback logic
  of `brevo_analytics/supabase.py` and `brevo_analytics/views.py`.

Machine integers are modelled as `Int`/`Nat`; unix timestamps as `Int`
seconds; Python float arithmetic on rates as `Rat` (only zero/definedness
properties are claimed about them); the Django ORM tables as lists of
records inside an explicit `Store` state threaded through the webhook.
-/

namespace BrevoAnalytics

/-! ## Event rows and the status deriver (supabase.py `_fetch_emails`) -/

/-- One row of the `email_events` table as selected by the read path
(`email_id,event_type,event_timestamp`). -/
structure EventRow where
  email_id : String
  event_type : String
  event_timestamp : Int
deriving DecidableEq, Repr

/-- The status hierarchy of `supabase.py` lines 328-340: clicked > opened >
delivered > bounced > unsubscribed > sent, each tested by membership in the
event list of the email. -/
def derive_current_status (evs : List EventRow) : String :=
  if evs.any (fun e => e.event_type == "clicked") then "clicked"
  else if evs.any (fun e => e.event_type == "opened") then "opened"
  else if evs.any (fun e => e.event_type == "delivered") then "delivered"
  else if evs.any (fun e => e.event_type == "bounced") then "bounced"
  else if evs.any (fun e => e.event_type == "unsubscribed") then "unsubscribed"
  else "sent"

/-- Spec-side formulation of the priority rule: a fixed priority list
evaluated top-down against a set-membership predicate over event kinds. -/
def statusOfKindMembership (has : String → Bool) : String :=
  if has "clicked" then "clicked"
  else if has "opened" then "opened"
  else if has "delivered" then "delivered"
  else if has "bounced" then "bounced"
  else if has "unsubscribed" then "unsubscribed"
  else "sent"

/-- The result of `List.any` only depends on the multiset of elements. -/
theorem any_eq_of_perm {α : Type} {l1 l2 : List α} (p : α → Bool)
    (h : l1.Perm l2) : l1.any p = l2.any p := by
  cases hb : l2.any p with
  | false =>
    cases ha : l1.any p with
    | false => rfl
    | true =>
      rcases List.any_eq_true.mp ha with ⟨x, hx, hp⟩
      have hc : l2.any p = true := List.any_eq_true.mpr ⟨x, h.mem_iff.mp hx, hp⟩
      rw [hb] at hc
      exact absurd hc (by decide)
  | true =>
    rcases List.any_eq_true.mp hb with ⟨x, hx, hp⟩
    exact List.any_eq_true.mpr ⟨x, h.mem_iff.mpr hx, hp⟩

/-- C1: the derived current_status is the fixed priority list clicked,
opened, delivered, bounced, unsubscribed (fallback "sent") evaluated
top-down against set membership of the event kinds of the email; in particular
the kind sets given in the priority table of the spec resolve to "opened",
"bounced" and "clicked". -/
theorem current_status_is_priority_over_membership :
    (∀ evs : List EventRow,
        derive_current_status evs =
          statusOfKindMembership (fun k => evs.any (fun e => e.event_type == k))) ∧
    derive_current_status
      [⟨"e", "sent", 0⟩, ⟨"e", "delivered", 1⟩, ⟨"e", "opened", 2⟩] = "opened" ∧
    derive_current_status [⟨"e", "sent", 0⟩, ⟨"e", "bounced", 1⟩] = "bounced" ∧
    derive_current_status
      [⟨"e", "sent", 0⟩, ⟨"e", "delivered", 1⟩, ⟨"e", "bounced", 2⟩,
       ⟨"e", "clicked", 3⟩] = "clicked" := by
  refine ⟨fun evs => rfl, by decide, by decide, by decide⟩

/-- C4: the derived current_status depends only on which events are present,
not on their order: any permutation of the event list of an email derives the same
status; in particular the events sent, bounced, delivered yield "delivered"
in either order. -/
theorem current_status_order_independent :
    (∀ evs1 evs2 : List EventRow, evs1.Perm evs2 →
        derive_current_status evs1 = derive_current_status evs2) ∧
    derive_current_status
      [⟨"e", "sent", 100⟩, ⟨"e", "bounced", 200⟩, ⟨"e", "delivered", 300⟩] =
      "delivered" ∧
    derive_current_status
      [⟨"e", "delivered", 300⟩, ⟨"e", "bounced", 200⟩, ⟨"e", "sent", 100⟩] =
      "delivered" := by
  refine ⟨fun evs1 evs2 h => ?_, by decide, by decide⟩
  unfold derive_current_status
  rw [any_eq_of_perm _ h, any_eq_of_perm _ h, any_eq_of_perm _ h,
    any_eq_of_perm _ h, any_eq_of_perm _ h]

/-- Closed instance of the C4 order-independence at a concrete permutation. -/
theorem current_status_order_independent_witness :
    derive_current_status
      [⟨"e", "sent", 100⟩, ⟨"e", "bounced", 200⟩, ⟨"e", "delivered", 300⟩] =
    derive_current_status
      [⟨"e", "delivered", 300⟩, ⟨"e", "bounced", 200⟩, ⟨"e", "sent", 100⟩] :=
  current_status_order_independent.1
    [⟨"e", "sent", 100⟩, ⟨"e", "bounced", 200⟩, ⟨"e", "delivered", 300⟩]
    [⟨"e", "delivered", 300⟩, ⟨"e", "bounced", 200⟩, ⟨"e", "sent", 100⟩]
    (by decide)

/-! ## Webhook payloads and validation (webhooks.py) -/

/-- The JSON fields of a Brevo webhook payload read by `brevo_webhook`
(webhooks.py lines 49-54 and 133-151); `none` models an absent key. -/
structure Payload where
  event : Option String
  message_id : Option String
  email : Option String
  subject : Option String
  ts_event : Option Int
  reason : Option String
  link : Option String
  ip : Option String
  user_agent : Option String
deriving DecidableEq, Repr

/-- Python truthiness of an optional string: absent and empty are falsy. -/
def truthyStr : Option String → Bool
  | none => false
  | some s => s != ""

/-- Python truthiness of an optional integer: absent and zero are falsy. -/
def truthyInt : Option Int → Bool
  | none => false
  | some t => t != 0

/-- The `not all([event_type, message_id, email_address, timestamp_unix])`
check of webhooks.py line 56, which tests truthiness of the four values. -/
def valid_fields (p : Payload) : Bool :=
  truthyStr p.event && truthyStr p.message_id && truthyStr p.email &&
    truthyInt p.ts_event

/-- Range in which `datetime.fromtimestamp(t, tz=utc)` succeeds (years 1 to
9999); outside it webhooks.py line 61-65 answers 400 Invalid timestamp. -/
def validTimestamp (t : Int) : Bool :=
  decide (-62135596800 ≤ t) && decide (t ≤ 253402300799)

/-- Calendar date (as a day number) of a unix timestamp, the
`event_datetime.date()` of webhooks.py line 67. -/
def dateOfTimestamp (t : Int) : Int := t.fdiv 86400

/-- The Brevo-to-canonical event-name mapping of webhooks.py lines 70-83;
unmapped names pass through unchanged (`event_mapping.get(event_type,
event_type)`). -/
def event_mapping (event_type : String) : String :=
  if event_type == "request" then "sent"
  else if event_type == "delivered" then "delivered"
  else if event_type == "hard_bounce" then "bounced"
  else if event_type == "soft_bounce" then "bounced"
  else if event_type == "blocked" then "blocked"
  else if event_type == "spam" then "spam"
  else if event_type == "unsubscribe" then "unsubscribed"
  else if event_type == "opened" then "opened"
  else if event_type == "click" then "clicked"
  else if event_type == "deferred" then "deferred"
  else event_type

/-- Whether `needle` occurs as a contiguous substring of `hay`, on character
lists (the Python `needle in hay` test on strings). -/
def charsContain (hay needle : List Char) : Bool :=
  match hay with
  | [] => needle.isEmpty
  | c :: t => needle.isPrefixOf (c :: t) || charsContain t needle

/-- Substring containment on strings. -/
def strContainsSub (hay needle : String) : Bool :=
  charsContain hay.toList needle.toList

/-- The kind-specific `extra_data` dict built in webhooks.py lines 133-151,
including the raw payload retained for debugging. -/
structure ExtraData where
  bounce_type : Option String
  bounce_reason : Option String
  url : Option String
  ip : Option String
  user_agent : Option String
  raw : Payload
deriving DecidableEq, Repr

/-- webhooks.py lines 133-151: bounce, click and open details are attached
depending on the raw provider event name. -/
def build_extra_data (event_type : String) (p : Payload) : ExtraData :=
  { bounce_type :=
      if strContainsSub event_type "bounce" then
        some (if strContainsSub event_type "hard" then "hard" else "soft")
      else none
    bounce_reason :=
      if strContainsSub event_type "bounce" then some (p.reason.getD "")
      else none
    url := if event_type == "click" then some (p.link.getD "") else none
    ip := if event_type == "opened" then some (p.ip.getD "") else none
    user_agent :=
      if event_type == "opened" then some (p.user_agent.getD "") else none
    raw := p }

/-! ## The persistent state mutated by the webhook -/

/-- One stored event in the append-only event log of an email. -/
structure StoredEvent where
  event_type : String
  timestamp : Int
  extra : ExtraData
deriving DecidableEq, Repr

/-- A `BrevoMessage` row: a logical campaign keyed by (subject, sent_date)
(webhooks.py lines 110-117). -/
structure BrevoMessage where
  subject : String
  sent_date : Int
  total_sent : Nat
deriving DecidableEq, Repr

/-- A `BrevoEmail` row: one outbound message to one recipient, identified by
(brevo_message_id, recipient_email), holding its owning message key, its
immutable sent_at, the derived current_status and the event log
(webhooks.py lines 122-130). -/
structure BrevoEmail where
  brevo_message_id : String
  message_key : String × Int
  recipient_email : String
  sent_at : Int
  current_status : String
  events : List StoredEvent
deriving DecidableEq, Repr

/-- The database state touched by the webhook: the messages and emails
tables (events live inside the log of their email). -/
structure Store where
  messages : List BrevoMessage
  emails : List BrevoEmail
deriving DecidableEq, Repr

/-- The status priority rule of the Status Deriver of the spec applied to a
stored event log (same hierarchy as `derive_current_status`). -/
def status_from_events (evs : List StoredEvent) : String :=
  if evs.any (fun e => e.event_type == "clicked") then "clicked"
  else if evs.any (fun e => e.event_type == "opened") then "opened"
  else if evs.any (fun e => e.event_type == "delivered") then "delivered"
  else if evs.any (fun e => e.event_type == "bounced") then "bounced"
  else if evs.any (fun e => e.event_type == "unsubscribed") then "unsubscribed"
  else "sent"

/-- Modelled from the spec: `BrevoEmail.add_event` is called by webhooks.py
line 154 but its definition is not under src/ (src/ holds only the virtual
admin model). Per spec sections 4.4 and 4.5 it appends the event unless an
event with the same (kind, timestamp) is already stored for this email, in
which case it returns `false` and changes nothing; on insertion it
recomputes and persists current_status with the fixed priority rule. -/
def add_event (em : BrevoEmail) (event_type : String) (t : Int)
    (extra : ExtraData) : Bool × BrevoEmail :=
  if em.events.any (fun e => e.event_type == event_type && e.timestamp == t) then
    (false, em)
  else
    let evs := em.events ++ [⟨event_type, t, extra⟩]
    (true, { em with events := evs, current_status := status_from_events evs })

/-- The `BrevoEmail.objects.get(...)` lookup by identity pair of
webhooks.py lines 87-91. -/
def find_email (st : Store) (mid addr : String) : Option BrevoEmail :=
  st.emails.find? (fun e => e.brevo_message_id == mid && e.recipient_email == addr)

/-- The `BrevoMessage.objects.get_or_create(subject, sent_date)` of
webhooks.py lines 111-117, with `total_sent` defaulting to 0. -/
def get_or_create_message (msgs : List BrevoMessage) (subject : String)
    (d : Int) : BrevoMessage × List BrevoMessage :=
  match msgs.find? (fun m => m.subject == subject && m.sent_date == d) with
  | some m => (m, msgs)
  | none => (⟨subject, d, 0⟩, msgs ++ [⟨subject, d, 0⟩])

/-- Persisting a mutated email row back into the emails table (the ORM save
of the row with this identity pair). -/
def update_email (emails : List BrevoEmail) (mid addr : String)
    (em : BrevoEmail) : List BrevoEmail :=
  emails.map (fun e =>
    if e.brevo_message_id == mid && e.recipient_email == addr then em else e)

/-- The fresh `BrevoEmail.objects.create(...)` of webhooks.py lines 123-130:
sent_at from the sent event, current_status "sent", empty event log. -/
def mk_new_email (mid addr subject : String) (event_date t : Int) :
    BrevoEmail :=
  { brevo_message_id := mid
    message_key := (subject, event_date)
    recipient_email := addr
    sent_at := t
    current_status := "sent"
    events := [] }

/-- HTTP responses produced by the webhook view: `badRequest` is the
400-class `HttpResponseBadRequest`, `okJson` the 200 `JsonResponse` with a
status and optional reason field. -/
inductive WebhookResponse where
  | badRequest (message : String)
  | okJson (status : String) (reason : Option String)
deriving DecidableEq, Repr

/-- webhooks.py lines 67-161 after field validation: event mapping, the
resolver with its gating rule, message/email creation on "sent", and the
deduplicating event append. -/
def handle_event (p : Payload) (st : Store) : WebhookResponse × Store :=
  let event_type := p.event.getD ""
  let message_id := p.message_id.getD ""
  let email_address := p.email.getD ""
  let subject := p.subject.getD ""
  let t := p.ts_event.getD 0
  let event_date := dateOfTimestamp t
  let our_event_type := event_mapping event_type
  let extra := build_extra_data event_type p
  match find_email st message_id email_address with
  | some em =>
    (WebhookResponse.okJson "ok" none,
      { st with
        emails :=
          update_email st.emails message_id email_address
            (add_event em our_event_type t extra).2 })
  | none =>
    if our_event_type == "sent" then
      let msgs := (get_or_create_message st.messages subject event_date).2
      let em0 := mk_new_email message_id email_address subject event_date t
      (WebhookResponse.okJson "ok" none,
        { messages := msgs
          emails := st.emails ++ [(add_event em0 our_event_type t extra).2] })
    else (WebhookResponse.okJson "ignored" (some "no_sent_event"), st)

/-- webhooks.py lines 49-161: required-field truthiness check, timestamp
conversion, then the resolver and event store. -/
def process_payload (p : Payload) (st : Store) : WebhookResponse × Store :=
  if valid_fields p then
    if validTimestamp (p.ts_event.getD 0) then handle_event p st
    else (WebhookResponse.badRequest "Invalid timestamp", st)
  else (WebhookResponse.badRequest "Missing required fields", st)

/-- webhooks.py lines 42-47: JSON parsing of the raw body; the parser is a
parameter of the embedding. -/
def after_signature (parse : String → Option Payload) (body : String)
    (st : Store) : WebhookResponse × Store :=
  match parse body with
  | none => (WebhookResponse.badRequest "Invalid JSON", st)
  | some p => process_payload p st

/-- webhooks.py lines 26-47: the full endpoint. When a (truthy) webhook
secret is configured the X-Brevo-Signature header (default "") must equal
the hex HMAC-SHA256 of the raw body, else 400 before anything runs; the
HMAC function itself is a parameter of the embedding. -/
def brevo_webhook (hmac_sha256_hex : String → String → String)
    (webhook_secret : Option String) (signature_header : Option String)
    (parse : String → Option Payload) (body : String) (st : Store) :
    WebhookResponse × Store :=
  if truthyStr webhook_secret then
    let signature := signature_header.getD ""
    let computed := hmac_sha256_hex (webhook_secret.getD "") body
    if signature != computed then
      (WebhookResponse.badRequest "Invalid signature", st)
    else after_signature parse body st
  else after_signature parse body st

/-! ## Claims about the webhook boundary -/

/-- C8: with a configured (truthy) webhook secret, a signature header that
differs from the HMAC-SHA256 hex digest of the raw body makes the endpoint
answer 400 Invalid signature with the store untouched, before the resolver
or event store run; with no secret configured, verification is skipped and
processing continues directly with the parse/resolve pipeline. -/
theorem webhook_signature_gate :
    (∀ (hmac : String → String → String) (secret : String)
        (sig_header : Option String) (parse : String → Option Payload)
        (body : String) (st : Store),
        secret ≠ "" → sig_header.getD "" ≠ hmac secret body →
        brevo_webhook hmac (some secret) sig_header parse body st =
          (WebhookResponse.badRequest "Invalid signature", st)) ∧
    (∀ (hmac : String → String → String) (sig_header : Option String)
        (parse : String → Option Payload) (body : String) (st : Store),
        brevo_webhook hmac none sig_header parse body st =
          after_signature parse body st) := by
  constructor
  · intro hmac secret sig_header parse body st hs hne
    simp [brevo_webhook, truthyStr, bne_iff_ne, hs, hne]
  · intro hmac sig_header parse body st
    simp [brevo_webhook, truthyStr]

/-- Closed instance of C8 at a concrete mismatched signature. -/
theorem webhook_signature_gate_witness :
    brevo_webhook (fun _ _ => "0") (some "s") none (fun _ => none) ""
        ⟨[], []⟩ =
      (WebhookResponse.badRequest "Invalid signature", ⟨[], []⟩) :=
  webhook_signature_gate.1 (fun _ _ => "0") "s" none (fun _ => none) ""
    ⟨[], []⟩ (by decide) (by decide)

/-- C9: a payload whose required field is present but falsy is rejected with
400 Missing required fields: ts_event = 0 and empty strings for event,
message-id or email all count as missing, because line 56 of webhooks.py
tests truthiness of the four values, not key presence. -/
theorem falsy_required_fields_rejected (p : Payload) (st : Store)
    (h : p.ts_event = some 0 ∨ p.event = some "" ∨ p.message_id = some "" ∨
      p.email = some "") :
    process_payload p st =
      (WebhookResponse.badRequest "Missing required fields", st) := by
  have hf : valid_fields p = false := by
    rcases h with h | h | h | h <;>
      simp [valid_fields, truthyStr, truthyInt, h]
  simp [process_payload, hf]

/-- Closed instance of C9: the epoch timestamp 0 is treated as missing. -/
theorem falsy_required_fields_rejected_witness :
    process_payload
        ⟨some "delivered", some "m1", some "a@b.c", some "subj", some 0,
          none, none, none, none⟩ ⟨[], []⟩ =
      (WebhookResponse.badRequest "Missing required fields", ⟨[], []⟩) :=
  falsy_required_fields_rejected _ _ (Or.inl rfl)

/-! ## Helper lemmas about the store operations -/

/-- The result of `find?` over an append whose first part has no match. -/
theorem find?_append_none {α : Type} (f : α → Bool) {l1 : List α}
    (l2 : List α) (h : l1.find? f = none) :
    (l1 ++ l2).find? f = l2.find? f := by
  induction l1 with
  | nil => rfl
  | cons a t ih =>
    rw [List.find?_eq_none] at h
    have hfa : ¬ f a := h a (by simp)
    rw [List.cons_append, List.find?_cons_of_neg _ hfa]
    exact ih (List.find?_eq_none.mpr fun x hx => h x (by simp [hx]))

/-- After replacing every matching row by `em` (itself matching), `find?`
returns `em` whenever a match existed before. -/
theorem find?_map_update {α : Type} (f : α → Bool) (em : α) {l : List α}
    (hem : f em = true) (h : (l.find? f).isSome) :
    (l.map (fun e => if f e then em else e)).find? f = some em := by
  induction l with
  | nil => simp at h
  | cons a t ih =>
    cases hfa : f a
    · rw [List.find?_cons_of_neg _ (by simp [hfa])] at h
      simp only [List.map_cons]
      rw [if_neg (by simp [hfa]), List.find?_cons_of_neg _ (by simp [hfa])]
      exact ih h
    · simp only [List.map_cons]
      rw [if_pos (by simp [hfa]), List.find?_cons_of_pos _ hem]

/-- Replacing matches by `em` twice is the same as doing it once. -/
theorem map_update_idem {α : Type} (f : α → Bool) (em : α) (l : List α) :
    (l.map (fun e => if f e then em else e)).map
        (fun e => if f e then em else e) =
      l.map (fun e => if f e then em else e) := by
  rw [List.map_map]
  apply List.map_congr_left
  intro a _
  by_cases hfa : f a = true
  · by_cases hfe : f em = true
    · simp [hfa, hfe]
    · simp [hfa, hfe]
  · simp [hfa]

/-- Replacing matches is the identity when nothing matches. -/
theorem map_update_of_none {α : Type} (f : α → Bool) (em : α) {l : List α}
    (h : l.find? f = none) :
    l.map (fun e => if f e then em else e) = l := by
  rw [List.find?_eq_none] at h
  calc l.map (fun e => if f e then em else e)
      = l.map id := List.map_congr_left fun a ha => if_neg (h a ha)
    _ = l := List.map_id l

/-- The operation `add_event` never changes the provider message id. -/
theorem add_event_message_id (em : BrevoEmail) (k : String) (t : Int)
    (x : ExtraData) :
    (add_event em k t x).2.brevo_message_id = em.brevo_message_id := by
  unfold add_event
  split <;> rfl

/-- The operation `add_event` never changes the recipient address. -/
theorem add_event_recipient (em : BrevoEmail) (k : String) (t : Int)
    (x : ExtraData) :
    (add_event em k t x).2.recipient_email = em.recipient_email := by
  unfold add_event
  split <;> rfl

/-- The operation `add_event` never changes the sent_at timestamp. -/
theorem add_event_sent_at (em : BrevoEmail) (k : String) (t : Int)
    (x : ExtraData) :
    (add_event em k t x).2.sent_at = em.sent_at := by
  unfold add_event
  split <;> rfl

/-- The operation `add_event` never changes the owning message key. -/
theorem add_event_message_key (em : BrevoEmail) (k : String) (t : Int)
    (x : ExtraData) :
    (add_event em k t x).2.message_key = em.message_key := by
  unfold add_event
  split <;> rfl

/-- After `add_event`, the (kind, timestamp) pair is present in the log. -/
theorem add_event_has_event (em : BrevoEmail) (k : String) (t : Int)
    (x : ExtraData) :
    (add_event em k t x).2.events.any
        (fun e => e.event_type == k && e.timestamp == t) = true := by
  unfold add_event
  split
  · next h => exact h
  · simp

/-- The operation `add_event` is a no-op reporting `false` on a duplicate
(kind, timestamp) pair. -/
theorem add_event_of_dup (em : BrevoEmail) (k : String) (t : Int)
    (x : ExtraData)
    (h : em.events.any (fun e => e.event_type == k && e.timestamp == t) =
      true) :
    add_event em k t x = (false, em) := by
  unfold add_event
  rw [if_pos h]

/-- The operation `add_event` on an email with an empty log stores exactly one event. -/
theorem add_event_on_empty (em : BrevoEmail) (k : String) (t : Int)
    (x : ExtraData) (h : em.events = []) :
    (add_event em k t x).2 =
      { em with
        events := [⟨k, t, x⟩]
        current_status := status_from_events [⟨k, t, x⟩] } := by
  unfold add_event
  rw [h]
  simp

/-! ## Shape lemmas for the four webhook outcomes -/

/-- A payload with a falsy required field leaves the store untouched. -/
theorem process_invalid_fields (p : Payload) (st : Store)
    (h : valid_fields p = false) :
    process_payload p st =
      (WebhookResponse.badRequest "Missing required fields", st) := by
  simp [process_payload, h]

/-- A payload with an out-of-range timestamp leaves the store untouched. -/
theorem process_invalid_timestamp (p : Payload) (st : Store)
    (hv : valid_fields p = true)
    (h : validTimestamp (p.ts_event.getD 0) = false) :
    process_payload p st =
      (WebhookResponse.badRequest "Invalid timestamp", st) := by
  simp [process_payload, hv, h]

/-- The gating outcome: unknown identity and a non-sent kind answer
"ignored" and leave the store untouched. -/
theorem process_gated (p : Payload) (st : Store)
    (hv : valid_fields p = true)
    (ht : validTimestamp (p.ts_event.getD 0) = true)
    (hk : event_mapping (p.event.getD "") ≠ "sent")
    (hnone : find_email st (p.message_id.getD "") (p.email.getD "") = none) :
    process_payload p st =
      (WebhookResponse.okJson "ignored" (some "no_sent_event"), st) := by
  unfold process_payload
  rw [if_pos hv, if_pos ht]
  simp [handle_event, hnone, hk]

/-- The creation outcome: unknown identity and a sent kind get-or-create
the message, create the email and append the sent event. -/
theorem process_sent_unknown (p : Payload) (st : Store)
    (hv : valid_fields p = true)
    (ht : validTimestamp (p.ts_event.getD 0) = true)
    (hk : event_mapping (p.event.getD "") = "sent")
    (hnone : find_email st (p.message_id.getD "") (p.email.getD "") = none) :
    process_payload p st =
      (WebhookResponse.okJson "ok" none,
        { messages := (get_or_create_message st.messages (p.subject.getD "")
            (dateOfTimestamp (p.ts_event.getD 0))).2,
          emails := st.emails ++
            [(add_event
                (mk_new_email (p.message_id.getD "") (p.email.getD "")
                  (p.subject.getD "") (dateOfTimestamp (p.ts_event.getD 0))
                  (p.ts_event.getD 0))
                "sent" (p.ts_event.getD 0)
                (build_extra_data (p.event.getD "") p)).2] }) := by
  unfold process_payload
  rw [if_pos hv, if_pos ht]
  simp [handle_event, hnone, hk]

/-- The existing-email outcome: the found email receives the (deduplicated)
event append and is written back; nothing else changes. -/
theorem process_existing (p : Payload) (st : Store) (em : BrevoEmail)
    (hv : valid_fields p = true)
    (ht : validTimestamp (p.ts_event.getD 0) = true)
    (hsome : find_email st (p.message_id.getD "") (p.email.getD "") =
      some em) :
    process_payload p st =
      (WebhookResponse.okJson "ok" none,
        { st with
          emails := update_email st.emails (p.message_id.getD "")
            (p.email.getD "")
            (add_event em (event_mapping (p.event.getD ""))
              (p.ts_event.getD 0)
              (build_extra_data (p.event.getD "") p)).2 }) := by
  unfold process_payload
  rw [if_pos hv, if_pos ht]
  simp [handle_event, hsome]

/-- After a sent event for an unknown identity, the identity resolves to
the freshly created email carrying the appended sent event. -/
theorem find_email_after_sent_unknown (p : Payload) (st : Store)
    (hv : valid_fields p = true)
    (ht : validTimestamp (p.ts_event.getD 0) = true)
    (hk : event_mapping (p.event.getD "") = "sent")
    (hnone : find_email st (p.message_id.getD "") (p.email.getD "") = none) :
    find_email (process_payload p st).2 (p.message_id.getD "")
        (p.email.getD "") =
      some (add_event
          (mk_new_email (p.message_id.getD "") (p.email.getD "")
            (p.subject.getD "") (dateOfTimestamp (p.ts_event.getD 0))
            (p.ts_event.getD 0))
          "sent" (p.ts_event.getD 0)
          (build_extra_data (p.event.getD "") p)).2 := by
  rw [process_sent_unknown p st hv ht hk hnone]
  unfold find_email at hnone ⊢
  simp only []
  rw [find?_append_none _ _ hnone]
  simp [List.find?, add_event_message_id, add_event_recipient, mk_new_email]

/-- C3: a non-sent event for an unknown (provider_message_id, recipient)
identity is ignored with a 200 `ignored`/`no_sent_event` response and an
unchanged store (no Message, Email or Event record); a subsequent sent
event for that identity creates the Email, and the redelivered non-sent
event afterward is accepted with 200 `ok` and its event stored. -/
theorem webhook_gating_rule (p_d p_s : Payload) (st : Store)
    (hvd : valid_fields p_d = true)
    (htd : validTimestamp (p_d.ts_event.getD 0) = true)
    (hkd : event_mapping (p_d.event.getD "") ≠ "sent")
    (hvs : valid_fields p_s = true)
    (hts : validTimestamp (p_s.ts_event.getD 0) = true)
    (hks : event_mapping (p_s.event.getD "") = "sent")
    (hm : p_s.message_id = p_d.message_id) (he : p_s.email = p_d.email)
    (hnone : find_email st (p_d.message_id.getD "") (p_d.email.getD "") =
      none) :
    process_payload p_d st =
      (WebhookResponse.okJson "ignored" (some "no_sent_event"), st) ∧
    (process_payload p_s st).1 = WebhookResponse.okJson "ok" none ∧
    (∃ em, find_email (process_payload p_s st).2 (p_d.message_id.getD "")
        (p_d.email.getD "") = some em) ∧
    (process_payload p_d (process_payload p_s st).2).1 =
      WebhookResponse.okJson "ok" none ∧
    (∃ em, find_email (process_payload p_d (process_payload p_s st).2).2
        (p_d.message_id.getD "") (p_d.email.getD "") = some em ∧
      em.events.any (fun e =>
        e.event_type == event_mapping (p_d.event.getD "") &&
        e.timestamp == p_d.ts_event.getD 0) = true) := by
  have hnone_s : find_email st (p_s.message_id.getD "") (p_s.email.getD "") =
      none := by
    rw [hm, he]; exact hnone
  have hfind1 : find_email (process_payload p_s st).2 (p_d.message_id.getD "")
      (p_d.email.getD "") =
      some (add_event
          (mk_new_email (p_s.message_id.getD "") (p_s.email.getD "")
            (p_s.subject.getD "") (dateOfTimestamp (p_s.ts_event.getD 0))
            (p_s.ts_event.getD 0))
          "sent" (p_s.ts_event.getD 0)
          (build_extra_data (p_s.event.getD "") p_s)).2 := by
    rw [← hm, ← he]
    exact find_email_after_sent_unknown p_s st hvs hts hks hnone_s
  refine ⟨process_gated p_d st hvd htd hkd hnone, ?_, ⟨_, hfind1⟩, ?_, ?_⟩
  · rw [process_sent_unknown p_s st hvs hts hks hnone_s]
  · rw [process_existing p_d (process_payload p_s st).2 _ hvd htd hfind1]
  · refine ⟨(add_event
        (add_event
          (mk_new_email (p_s.message_id.getD "") (p_s.email.getD "")
            (p_s.subject.getD "") (dateOfTimestamp (p_s.ts_event.getD 0))
            (p_s.ts_event.getD 0))
          "sent" (p_s.ts_event.getD 0)
          (build_extra_data (p_s.event.getD "") p_s)).2
        (event_mapping (p_d.event.getD "")) (p_d.ts_event.getD 0)
        (build_extra_data (p_d.event.getD "") p_d)).2, ?_,
      add_event_has_event _ _ _ _⟩
    rw [process_existing p_d (process_payload p_s st).2 _ hvd htd hfind1]
    unfold find_email update_email
    simp only []
    apply find?_map_update
    · simp [add_event_message_id, add_event_recipient, mk_new_email, hm, he]
    · unfold find_email at hfind1
      rw [hfind1]
      rfl

/-- C2: once a webhook payload has been ingested with a 200 `ok` response,
re-submitting the identical payload is a no-op: the store (hence the stored
event log and the current_status) is unchanged, the append reports `false`
(not-inserted) rather than raising, and the response is again 200 `ok`. -/
theorem webhook_duplicate_noop (p : Payload) (st st1 : Store)
    (h : process_payload p st = (WebhookResponse.okJson "ok" none, st1)) :
    process_payload p st1 = (WebhookResponse.okJson "ok" none, st1) ∧
    (∀ em, find_email st1 (p.message_id.getD "") (p.email.getD "") = some em →
      (add_event em (event_mapping (p.event.getD "")) (p.ts_event.getD 0)
        (build_extra_data (p.event.getD "") p)).1 = false) := by
  cases hv : valid_fields p with
  | false =>
    rw [process_invalid_fields p st hv] at h
    exact absurd h (by simp)
  | true =>
  cases ht : validTimestamp (p.ts_event.getD 0) with
  | false =>
    rw [process_invalid_timestamp p st hv ht] at h
    exact absurd h (by simp)
  | true =>
  cases hfind : find_email st (p.message_id.getD "") (p.email.getD "") with
  | none =>
    by_cases hk : event_mapping (p.event.getD "") = "sent"
    case neg =>
      rw [process_gated p st hv ht hk hfind] at h
      exact absurd h (by simp)
    case pos =>
      have hshape := process_sent_unknown p st hv ht hk hfind
      have hfindX : find_email (process_payload p st).2 (p.message_id.getD "")
          (p.email.getD "") =
          some (add_event
            (mk_new_email (p.message_id.getD "") (p.email.getD "")
              (p.subject.getD "") (dateOfTimestamp (p.ts_event.getD 0))
              (p.ts_event.getD 0))
            "sent" (p.ts_event.getD 0)
            (build_extra_data (p.event.getD "") p)).2 :=
        find_email_after_sent_unknown p st hv ht hk hfind
      rw [hshape] at h hfindX
      have h2 := congrArg Prod.snd h
      simp only [] at h2
      subst h2
      simp only [] at hfindX
      have hdup : (add_event
          (mk_new_email (p.message_id.getD "") (p.email.getD "")
            (p.subject.getD "") (dateOfTimestamp (p.ts_event.getD 0))
            (p.ts_event.getD 0))
          "sent" (p.ts_event.getD 0)
          (build_extra_data (p.event.getD "") p)).2.events.any
          (fun e => e.event_type == event_mapping (p.event.getD "") &&
            e.timestamp == p.ts_event.getD 0) = true := by
        rw [hk]
        exact add_event_has_event _ "sent" _ _
      have hnoop := add_event_of_dup _ _ _
        (build_extra_data (p.event.getD "") p) hdup
      constructor
      · rw [process_existing p _ _ hv ht hfindX, hnoop]
        unfold find_email at hfind
        simp only [update_email, List.map_append,
          map_update_of_none _ _ hfind, List.map_cons, List.map_nil,
          ite_self]
      · intro em hem
        rw [hfindX] at hem
        cases hem
        rw [hnoop]
  | some em =>
    have hshape := process_existing p st em hv ht hfind
    rw [hshape] at h
    have h2 := congrArg Prod.snd h
    simp only [] at h2
    subst h2
    have hpred : (em.brevo_message_id == p.message_id.getD "" &&
        em.recipient_email == p.email.getD "") = true := by
      have := List.find?_some (p := fun e : BrevoEmail =>
        e.brevo_message_id == p.message_id.getD "" &&
        e.recipient_email == p.email.getD "") hfind
      exact this
    have hpred1 : ((add_event em (event_mapping (p.event.getD ""))
        (p.ts_event.getD 0)
        (build_extra_data (p.event.getD "") p)).2.brevo_message_id ==
          p.message_id.getD "" &&
        (add_event em (event_mapping (p.event.getD ""))
          (p.ts_event.getD 0)
          (build_extra_data (p.event.getD "") p)).2.recipient_email ==
          p.email.getD "") = true := by
      rw [add_event_message_id, add_event_recipient]
      exact hpred
    have hfindX : find_email
        { st with
          emails := update_email st.emails (p.message_id.getD "")
            (p.email.getD "")
            (add_event em (event_mapping (p.event.getD ""))
              (p.ts_event.getD 0)
              (build_extra_data (p.event.getD "") p)).2 }
        (p.message_id.getD "") (p.email.getD "") =
        some (add_event em (event_mapping (p.event.getD ""))
          (p.ts_event.getD 0)
          (build_extra_data (p.event.getD "") p)).2 := by
      unfold find_email update_email
      simp only []
      apply find?_map_update
      · exact hpred1
      · unfold find_email at hfind
        rw [hfind]
        rfl
    have hdup : (add_event em (event_mapping (p.event.getD ""))
        (p.ts_event.getD 0)
        (build_extra_data (p.event.getD "") p)).2.events.any
        (fun e => e.event_type == event_mapping (p.event.getD "") &&
          e.timestamp == p.ts_event.getD 0) = true :=
      add_event_has_event _ _ _ _
    have hnoop := add_event_of_dup _ _ _
      (build_extra_data (p.event.getD "") p) hdup
    constructor
    · rw [process_existing p _ _ hv ht hfindX, hnoop]
      simp only [update_email, map_update_idem]
    · intro em2 hem
      rw [hfindX] at hem
      cases hem
      rw [hnoop]

/-- The operation `get_or_create_message` always leaves a message with the requested
(subject, date) key in the table. -/
theorem get_or_create_message_finds (msgs : List BrevoMessage)
    (subject : String) (d : Int) :
    ((get_or_create_message msgs subject d).2.find? (fun m =>
      m.subject == subject && m.sent_date == d)).isSome = true := by
  unfold get_or_create_message
  cases hf : msgs.find? (fun m => m.subject == subject && m.sent_date == d) with
  | some m => simp [hf]
  | none =>
    simp only []
    rw [find?_append_none _ _ hf]
    simp [List.find?]

/-- C5: a sent event for an unknown identity creates the Email via
`BrevoEmail.objects.create` with an empty event log and status "sent", and
after the webhook the stored email has sent_at equal to the event
timestamp, current_status "sent" and the owning message key
(subject, calendar date of the event), the owning Message having been
resolved-or-created under that key; and once an Email exists for the
identity pair, any later event for that pair reuses it without recreating
(the emails table size is unchanged) and never alters its sent_at. -/
theorem webhook_sent_creates_email (p : Payload) (st : Store)
    (hv : valid_fields p = true)
    (ht : validTimestamp (p.ts_event.getD 0) = true)
    (hk : event_mapping (p.event.getD "") = "sent")
    (hnone : find_email st (p.message_id.getD "") (p.email.getD "") = none) :
    (mk_new_email (p.message_id.getD "") (p.email.getD "")
        (p.subject.getD "") (dateOfTimestamp (p.ts_event.getD 0))
        (p.ts_event.getD 0)).events = [] ∧
    (mk_new_email (p.message_id.getD "") (p.email.getD "")
        (p.subject.getD "") (dateOfTimestamp (p.ts_event.getD 0))
        (p.ts_event.getD 0)).current_status = "sent" ∧
    (process_payload p st).1 = WebhookResponse.okJson "ok" none ∧
    (∃ em, find_email (process_payload p st).2 (p.message_id.getD "")
        (p.email.getD "") = some em ∧
      em.sent_at = p.ts_event.getD 0 ∧
      em.current_status = "sent" ∧
      em.message_key =
        (p.subject.getD "", dateOfTimestamp (p.ts_event.getD 0))) ∧
    ((process_payload p st).2.messages.find? (fun m =>
        m.subject == p.subject.getD "" &&
        m.sent_date == dateOfTimestamp (p.ts_event.getD 0))).isSome = true ∧
    (∀ p2 st2 em, p2.message_id = p.message_id → p2.email = p.email →
      find_email st2 (p.message_id.getD "") (p.email.getD "") = some em →
      (process_payload p2 st2).2.emails.length = st2.emails.length ∧
      ∃ em2, find_email (process_payload p2 st2).2 (p.message_id.getD "")
          (p.email.getD "") = some em2 ∧ em2.sent_at = em.sent_at) := by
  refine ⟨rfl, rfl, ?_, ?_, ?_, ?_⟩
  · rw [process_sent_unknown p st hv ht hk hnone]
  · refine ⟨_, find_email_after_sent_unknown p st hv ht hk hnone, ?_, ?_, ?_⟩
    · rw [add_event_sent_at]
      rfl
    · rw [add_event_on_empty _ _ _ _ rfl]
      simp [status_from_events]
    · rw [add_event_message_key]
      rfl
  · rw [process_sent_unknown p st hv ht hk hnone]
    exact get_or_create_message_finds st.messages (p.subject.getD "")
      (dateOfTimestamp (p.ts_event.getD 0))
  · intro p2 st2 em hm2 he2 hsome
    rw [← hm2, ← he2] at hsome ⊢
    cases hv2 : valid_fields p2 with
    | false =>
      rw [process_invalid_fields p2 st2 hv2]
      exact ⟨rfl, em, hsome, rfl⟩
    | true =>
    cases ht2 : validTimestamp (p2.ts_event.getD 0) with
    | false =>
      rw [process_invalid_timestamp p2 st2 hv2 ht2]
      exact ⟨rfl, em, hsome, rfl⟩
    | true =>
    rw [process_existing p2 st2 em hv2 ht2 hsome]
    constructor
    · simp [update_email]
    · have hpred : (em.brevo_message_id == p2.message_id.getD "" &&
          em.recipient_email == p2.email.getD "") = true :=
        List.find?_some (p := fun e : BrevoEmail =>
          e.brevo_message_id == p2.message_id.getD "" &&
          e.recipient_email == p2.email.getD "") hsome
      have hpred1 : ((add_event em (event_mapping (p2.event.getD ""))
          (p2.ts_event.getD 0)
          (build_extra_data (p2.event.getD "") p2)).2.brevo_message_id ==
            p2.message_id.getD "" &&
          (add_event em (event_mapping (p2.event.getD ""))
            (p2.ts_event.getD 0)
            (build_extra_data (p2.event.getD "") p2)).2.recipient_email ==
            p2.email.getD "") = true := by
        rw [add_event_message_id, add_event_recipient]
        exact hpred
      refine ⟨(add_event em (event_mapping (p2.event.getD ""))
          (p2.ts_event.getD 0)
          (build_extra_data (p2.event.getD "") p2)).2, ?_,
        add_event_sent_at _ _ _ _⟩
      unfold find_email update_email
      simp only []
      apply find?_map_update
      · exact hpred1
      · unfold find_email at hsome
        rw [hsome]
        rfl

/-! ## Concrete payloads and stores for the closed witnesses -/

/-- A concrete "request" (canonical kind sent) payload. -/
def pSent : Payload :=
  ⟨some "request", some "m1", some "a@b.c", some "subj", some 50,
    none, none, none, none⟩

/-- A concrete "delivered" payload for the same identity as `pSent`. -/
def pDelivered : Payload :=
  ⟨some "delivered", some "m1", some "a@b.c", some "subj", some 100,
    none, none, none, none⟩

/-- The empty store. -/
def emptyStore : Store := ⟨[], []⟩

/-- Closed instance of C2: re-submitting `pSent` after it was ingested into
the empty store changes nothing and still answers `ok`. -/
theorem webhook_duplicate_noop_witness :
    process_payload pSent (process_payload pSent emptyStore).2 =
      (WebhookResponse.okJson "ok" none,
        (process_payload pSent emptyStore).2) :=
  (webhook_duplicate_noop pSent emptyStore
    (process_payload pSent emptyStore).2 (by decide)).1

/-- Closed instance of C3: `pDelivered` alone is ignored on the empty
store, `pSent` then creates the email, and redelivered `pDelivered` is
accepted. -/
theorem webhook_gating_rule_witness :
    process_payload pDelivered emptyStore =
      (WebhookResponse.okJson "ignored" (some "no_sent_event"),
        emptyStore) ∧
    (process_payload pSent emptyStore).1 = WebhookResponse.okJson "ok" none ∧
    (process_payload pDelivered (process_payload pSent emptyStore).2).1 =
      WebhookResponse.okJson "ok" none := by
  have h := webhook_gating_rule pDelivered pSent emptyStore (by decide)
    (by decide) (by decide) (by decide) (by decide) (by decide) rfl rfl rfl
  exact ⟨h.1, h.2.1, h.2.2.2.1⟩

/-- Closed instance of C5 at `pSent` on the empty store. -/
theorem webhook_sent_creates_email_witness :
    (process_payload pSent emptyStore).1 = WebhookResponse.okJson "ok" none :=
  (webhook_sent_creates_email pSent emptyStore (by decide) (by decide)
    (by decide) rfl).2.2.1

/-! ## Dashboard stats aggregation (supabase.py `_fetch_dashboard_stats`) -/

/-- The dashboard stats dictionary; Python float rates are modelled as
rationals. -/
structure Stats where
  total_sent : Nat
  delivery_rate : Rat
  bounce_rate : Rat
  avg_delivery_time : Rat
  sent_trend : List Nat
  delivery_trend : List Rat
  bounce_trend : List Rat
deriving DecidableEq, Repr

/-- One row of the `emails` table as selected for stats (`id,sent_at`). -/
structure EmailRow where
  id : String
  sent_at : Int
deriving DecidableEq, Repr

/-- The per-email event grouping of supabase.py lines 183-188. -/
def email_events_of (events : List EventRow) (email_id : String) :
    List EventRow :=
  events.filter (fun e => e.email_id == email_id)

/-- The Python test `any(e[...] == kind for e in email_events)`. -/
def has_kind (evs : List EventRow) (k : String) : Bool :=
  evs.any (fun e => e.event_type == k)

/-- supabase.py lines 206-209: seconds between the first delivered event
returned and sent_at. -/
def delivery_time_of (em : EmailRow) (evs : List EventRow) : Option Rat :=
  match evs.find? (fun e => e.event_type == "delivered") with
  | some d => some ((d.event_timestamp - em.sent_at : Int) : Rat)
  | none => none

/-- supabase.py lines 139-232: the stats aggregation over the emails in the
window and their events, with the `total_sent == 0` early return, the
guarded rate divisions and the guarded average delivery time. -/
def fetch_dashboard_stats (emails : List EmailRow) (events : List EventRow) :
    Stats :=
  let total_sent := emails.length
  if total_sent = 0 then ⟨0, 0, 0, 0, [], [], []⟩
  else
    let delivered := emails.filter
      (fun em => has_kind (email_events_of events em.id) "delivered")
    let bounced := emails.filter
      (fun em => has_kind (email_events_of events em.id) "bounced")
    let delivery_times := delivered.filterMap
      (fun em => delivery_time_of em (email_events_of events em.id))
    let delivery_rate : Rat :=
      if total_sent > 0 then (delivered.length : Rat) / (total_sent : Rat) * 100
      else 0
    let bounce_rate : Rat :=
      if total_sent > 0 then (bounced.length : Rat) / (total_sent : Rat) * 100
      else 0
    let avg_delivery_time : Rat :=
      if !delivery_times.isEmpty then
        delivery_times.sum / (delivery_times.length : Rat)
      else 0
    ⟨total_sent, delivery_rate, bounce_rate, avg_delivery_time,
      List.replicate 7 (total_sent / 7), List.replicate 7 delivery_rate,
      List.replicate 7 bounce_rate⟩

/-- C7: for a window with zero emails the aggregation returns total_sent 0,
all rates and the average delivery time 0, and empty trends; and the
average-delivery-time division is guarded: with no delivered event at all it
yields 0 rather than a failure. The divisions in the embedding are executed
only under the `total_sent > 0` and nonempty guards that the code carries,
so no division by zero is performed on any input. -/
theorem dashboard_stats_zero_division_safe :
    (∀ events, fetch_dashboard_stats [] events = ⟨0, 0, 0, 0, [], [], []⟩) ∧
    (∀ emails events, (∀ e ∈ events, e.event_type ≠ "delivered") →
      (fetch_dashboard_stats emails events).avg_delivery_time = 0) := by
  constructor
  · intro events
    rfl
  · intro emails events h
    have hk : ∀ em : EmailRow,
        has_kind (email_events_of events em.id) "delivered" = false := by
      intro em
      unfold has_kind
      rw [List.any_eq_false]
      intro e he
      have he2 : e ∈ events := List.mem_of_mem_filter he
      simp [h e he2]
    cases emails with
    | nil => rfl
    | cons a l =>
      simp [fetch_dashboard_stats, hk]

/-- Closed instance of C7: a bounced-only event log has average delivery
time 0. -/
theorem dashboard_stats_zero_division_safe_witness :
    (fetch_dashboard_stats [⟨"e1", 0⟩]
      [⟨"e1", "bounced", 5⟩]).avg_delivery_time = 0 :=
  dashboard_stats_zero_division_safe.2 [⟨"e1", 0⟩] [⟨"e1", "bounced", 5⟩]
    (by decide)

/-! ## Cache-first read resilience (supabase.py / views.py) -/

/-- Outcome of one recomputation attempt against the backing store. -/
inductive FetchOutcome where
  | ok (s : Stats)
  | storeError
deriving DecidableEq, Repr

/-- supabase.py `get_dashboard_stats` lines 121-137 for one cache key:
return the cached value on a hit; on a miss recompute, populate the cache
and return the result; wrap a backing-store failure into a raised
`SupabaseAPIError`, modelled as `Except.error`, leaving the cache
unpopulated. The second component of the pair is the cache state afterwards. -/
def get_dashboard_stats (cached : Option Stats) (fetch : FetchOutcome) :
    Except String Stats × Option Stats :=
  match cached with
  | some s => (Except.ok s, some s)
  | none =>
    match fetch with
    | FetchOutcome.ok s => (Except.ok s, some s)
    | FetchOutcome.storeError =>
      (Except.error "Failed to fetch dashboard stats", none)

/-- The template context assembled by views.py `dashboard_view`. -/
structure DashboardContext where
  stats : Option Stats
  api_healthy : Bool
deriving DecidableEq, Repr

/-- views.py `dashboard_view` lines 34-59: serve fresh stats when
`get_dashboard_stats` succeeds; on a `SupabaseAPIError` re-read the shared
cache (a second snapshot, since the cache may change between the two reads)
and serve it flagged `api_healthy = False`, or an explicit `stats = None`
when no cached value exists. The view is a total function: the error never
escapes it. -/
def dashboard_view (cached_at_get : Option Stats) (fetch : FetchOutcome)
    (cached_at_fallback : Option Stats) : DashboardContext :=
  match (get_dashboard_stats cached_at_get fetch).1 with
  | Except.ok s => ⟨some s, true⟩
  | Except.error _ =>
    match cached_at_fallback with
    | some c => ⟨some c, false⟩
    | none => ⟨none, false⟩

/-- C6: when the recomputation fails with a backing-store error (which can
only happen on a cache miss), the view serves the last successfully cached
value for that same key when one exists, flagged `api_healthy = false`;
only when no cached value exists is the result the explicit unavailable
state `stats = none`; and on a cache hit no failure occurs at all, so the
failure never propagates out of the (total) view. -/
theorem dashboard_view_cache_fallback :
    (∀ c2 : Stats, dashboard_view none FetchOutcome.storeError (some c2) =
      ⟨some c2, false⟩) ∧
    dashboard_view none FetchOutcome.storeError none = ⟨none, false⟩ ∧
    (∀ (c1 : Stats) (f : FetchOutcome) (c2 : Option Stats),
      dashboard_view (some c1) f c2 = ⟨some c1, true⟩) :=
  ⟨fun _ => rfl, rfl, fun _ _ _ => rfl⟩

/-! ## Email listing read path (supabase.py `_fetch_emails`) -/

/-- One row of the `emails` table as selected by the listing query. -/
structure DbEmail where
  id : String
  recipient_email : String
  template_name : String
  subject : String
  sent_at : Int
deriving DecidableEq, Repr

/-- Descending insertion by sent_at. -/
def insert_desc (e : DbEmail) : List DbEmail → List DbEmail
  | [] => [e]
  | x :: xs =>
    if x.sent_at ≤ e.sent_at then e :: x :: xs else x :: insert_desc e xs

/-- A sort realising the PostgREST `order=sent_at.desc` parameter. -/
def sort_desc : List DbEmail → List DbEmail
  | [] => []
  | x :: xs => insert_desc x (sort_desc xs)

/-- The PostgREST query of supabase.py lines 286-293: window filter on
sent_at, descending order by sent_at, `limit=1000`. -/
def query_emails (db : List DbEmail) (from_date : Int) : List DbEmail :=
  (sort_desc (db.filter (fun e => decide (from_date ≤ e.sent_at)))).take 1000

/-- Python `search.lower() in field.lower()` on the two searched fields
(supabase.py lines 296-302). -/
def matches_search (search : String) (e : DbEmail) : Bool :=
  charsContain (e.recipient_email.toList.map Char.toLower)
    (search.toList.map Char.toLower) ||
  charsContain (e.subject.toList.map Char.toLower)
    (search.toList.map Char.toLower)

/-- supabase.py lines 282-302: run the capped window query, then apply the
(truthy) search filter client-side over the returned rows. -/
def fetch_emails (db : List DbEmail) (from_date : Int)
    (search : Option String) : List DbEmail :=
  let emails := query_emails db from_date
  if truthyStr search then emails.filter (matches_search (search.getD ""))
  else emails

/-- Membership in a descending insertion. -/
theorem mem_insert_desc {e x : DbEmail} {l : List DbEmail} :
    x ∈ insert_desc e l ↔ x = e ∨ x ∈ l := by
  induction l with
  | nil => simp [insert_desc]
  | cons a t ih =>
    unfold insert_desc
    by_cases h : a.sent_at ≤ e.sent_at
    · simp [h]
    · simp only [if_neg h, List.mem_cons, ih]
      tauto

/-- Descending insertion preserves descending sortedness. -/
theorem sorted_insert_desc (e : DbEmail) (l : List DbEmail)
    (h : List.Pairwise (fun a b => b.sent_at ≤ a.sent_at) l) :
    List.Pairwise (fun a b => b.sent_at ≤ a.sent_at) (insert_desc e l) := by
  induction l with
  | nil => simp [insert_desc]
  | cons a t ih =>
    rcases List.pairwise_cons.mp h with ⟨ha, ht⟩
    unfold insert_desc
    by_cases hc : a.sent_at ≤ e.sent_at
    · rw [if_pos hc]
      refine List.pairwise_cons.mpr ⟨?_, h⟩
      intro b hb
      rcases List.mem_cons.mp hb with rfl | hb2
      · exact hc
      · exact le_trans (ha b hb2) hc
    · rw [if_neg hc]
      refine List.pairwise_cons.mpr ⟨?_, ih ht⟩
      intro b hb
      rcases mem_insert_desc.mp hb with rfl | hb2
      · exact le_of_not_le hc
      · exact ha b hb2

/-- The sort `sort_desc` sorts descending by sent_at. -/
theorem sorted_sort_desc (l : List DbEmail) :
    List.Pairwise (fun a b => b.sent_at ≤ a.sent_at) (sort_desc l) := by
  induction l with
  | nil => simp [sort_desc]
  | cons a t ih => exact sorted_insert_desc a (sort_desc t) ih

/-- The sort `sort_desc` reorders, never adds or drops, elements. -/
theorem mem_sort_desc {x : DbEmail} {l : List DbEmail} :
    x ∈ sort_desc l ↔ x ∈ l := by
  induction l with
  | nil => simp [sort_desc]
  | cons a t ih =>
    unfold sort_desc
    rw [mem_insert_desc]
    simp [ih]

/-- In a descending-sorted list, everything dropped past position n is no
newer than anything kept. -/
theorem sorted_take_drop {l : List DbEmail} (n : Nat)
    (h : List.Pairwise (fun a b => b.sent_at ≤ a.sent_at) l) :
    ∀ b ∈ l.drop n, ∀ a ∈ l.take n, b.sent_at ≤ a.sent_at := by
  have h2 : List.Pairwise (fun a b => b.sent_at ≤ a.sent_at)
      (l.take n ++ l.drop n) := by
    rw [List.take_append_drop]
    exact h
  have h3 := (List.pairwise_append.mp h2).2.2
  intro b hb a ha
  exact h3 a ha b hb

/-- C10: the listing read path returns at most 1000 rows; the query result
is the window rows sorted newest-first and capped; the client-side search
filter runs after the cap, so every returned row comes from the capped
query (and matches the search when one is given), and every window row
beyond the 1000 newest is at least as old as everything the query kept —
matches outside the cap are silently omitted. -/
theorem fetch_emails_capped (db : List DbEmail) (from_date : Int) :
    (∀ search, (fetch_emails db from_date search).length ≤ 1000) ∧
    List.Pairwise (fun a b => b.sent_at ≤ a.sent_at)
      (query_emails db from_date) ∧
    (∀ e, e ∈ query_emails db from_date →
      e ∈ db ∧ from_date ≤ e.sent_at) ∧
    (∀ s e, e ∈ fetch_emails db from_date (some s) →
      e ∈ query_emails db from_date) ∧
    (∀ s e, s ≠ "" → e ∈ fetch_emails db from_date (some s) →
      matches_search s e = true) ∧
    (∀ e, e ∈ (sort_desc (db.filter
        (fun x => decide (from_date ≤ x.sent_at)))).drop 1000 →
      ∀ f ∈ query_emails db from_date, e.sent_at ≤ f.sent_at) := by
  refine ⟨?_, ?_, ?_, ?_, ?_, ?_⟩
  · intro search
    unfold fetch_emails query_emails
    split
    · exact le_trans (List.length_filter_le _ _) (List.length_take_le _ _)
    · exact List.length_take_le _ _
  · exact List.Pairwise.sublist (List.take_sublist _ _) (sorted_sort_desc _)
  · intro e he
    have h1 : e ∈ sort_desc (db.filter
        (fun x => decide (from_date ≤ x.sent_at))) :=
      List.take_subset _ _ he
    have h2 := mem_sort_desc.mp h1
    rcases List.mem_filter.mp h2 with ⟨hdb, hge⟩
    exact ⟨hdb, of_decide_eq_true hge⟩
  · intro s e he
    unfold fetch_emails at he
    split at he
    · exact List.mem_of_mem_filter he
    · exact he
  · intro s e hs he
    have hst : truthyStr (some s) = true := by
      simp [truthyStr, bne_iff_ne, hs]
    unfold fetch_emails at he
    rw [if_pos hst] at he
    exact List.of_mem_filter he
  · intro e he f hf
    exact sorted_take_drop 1000 (sorted_sort_desc _) e he f hf

/-- Closed instance of C10 at a one-row table and a nonempty search. -/
theorem fetch_emails_capped_witness :
    (⟨"1", "bob@x.y", "t", "hello", 10⟩ : DbEmail) ∈
      query_emails [⟨"1", "bob@x.y", "t", "hello", 10⟩] 0 :=
  (fetch_emails_capped [⟨"1", "bob@x.y", "t", "hello", 10⟩] 0).2.2.2.1 "bob"
    ⟨"1", "bob@x.y", "t", "hello", 10⟩ (by decide)

end BrevoAnalytics
